import Mathlib

/-!
Shallow embedding of the Stability-Tracker backend (a Django / Django REST
Framework application: src/api/models.py, src/api/serializers.py,
src/api/views.py).

Modelling conventions:
* UUID primary keys and datetimes are modelled as natural numbers; fresh
  primary keys come from a counter stored in the database state.
* The database is an explicit record of lists of rows; each Django model
  becomes a structure whose fields keep the model's snake_case names.
* A request either carries an authenticated user (some u) or is anonymous
  (none), matching request.user.is_authenticated.
* A DRF ModelSerializer first resolves every name in its Meta.fields list
  against the explicitly declared serializer fields and the model's fields;
  a name that resolves against neither makes the framework raise
  ImproperlyConfigured (surfaced as a server error) before any validation
  or serialization is done.  That resolution step is embedded explicitly,
  because three of the four serializers in this code base list field names
  their model does not have.
-/

structure UserRec where
  id : Nat
  username : String
  email : String
  deriving DecidableEq

structure ScheduleTemplateRec where
  id : Nat
  user : Option Nat
  name : String
  description : String
  testing_intervals : List Nat
  is_preset : Bool
  created_at : Nat
  updated_at : Nat
  deriving DecidableEq

structure FTCycleTemplateRec where
  id : Nat
  user : Nat
  name : String
  description : String
  freeze_hours : Int
  thaw_hours : Int
  created_at : Nat
  updated_at : Nat
  deriving DecidableEq

structure ProductRec where
  id : Nat
  user : Nat
  product_number : String
  product_name : String
  lot_number : String
  sample_size : Int
  start_date : String
  test_type : String
  schedule_template : Option Nat
  ft_cycle_type : String
  ft_cycle_custom : Option (List Nat)
  created_at : Nat
  deriving DecidableEq

structure TaskRec where
  id : Nat
  user : Nat
  product : Nat
  due_date : String
  description : String
  completed : Bool
  completed_at : Option Nat
  deleted : Bool
  deleted_at : Option Nat
  created_at : Nat
  deriving DecidableEq

structure DB where
  nextId : Nat
  users : List UserRec
  scheduleTemplates : List ScheduleTemplateRec
  ftCycleTemplates : List FTCycleTemplateRec
  products : List ProductRec
  tasks : List TaskRec
  deriving DecidableEq

/-- User.objects.get_or_create(username=uname, defaults=...): reuse the first
row with that username, otherwise insert a fresh one with the given default
email. -/
def getOrCreateUser (db : DB) (uname email : String) : UserRec × DB :=
  match db.users.find? (fun u => u.username == uname) with
  | some u => (u, db)
  | none =>
    let u : UserRec := { id := db.nextId, username := uname, email := email }
    (u, { db with nextId := db.nextId + 1, users := db.users ++ [u] })

/-- UserViewSet.current: get_or_create the well-known development identity
with a default email, and return it. -/
def userCurrent (db : DB) : UserRec × DB :=
  getOrCreateUser db "testuser" "test@example.com"

/-- The identity every viewset uses: request.user when authenticated,
otherwise User.objects.get_or_create(username='testuser') with no defaults. -/
def resolveRequestUser (db : DB) (auth : Option UserRec) : UserRec × DB :=
  match auth with
  | some u => (u, db)
  | none => getOrCreateUser db "testuser" ""

/- ---------------------------------------------------------------------
Serializer configuration layer: Meta.fields resolution (DRF build_field).
--------------------------------------------------------------------- -/

/-- A Meta.fields name resolves if it is an explicitly declared serializer
field or an attribute of the model (its concrete fields and relations). -/
def fieldResolves (declared modelFields : List String) (f : String) : Bool :=
  declared.contains f || modelFields.contains f

/-- The first Meta.fields name that resolves against neither the declared
serializer fields nor the model; DRF raises ImproperlyConfigured at it. -/
def firstUnresolvedField (declared metaFields modelFields : List String) : Option String :=
  metaFields.find? (fun f => !(fieldResolves declared modelFields f))

def userModelFields : List String :=
  ["id", "username", "email", "password", "first_name", "last_name", "is_active",
   "is_staff", "is_superuser", "last_login", "date_joined", "groups", "user_permissions"]

def scheduleTemplateModelFields : List String :=
  ["id", "user", "name", "description", "testing_intervals", "is_preset",
   "created_at", "updated_at"]

def ftCycleTemplateModelFields : List String :=
  ["id", "user", "name", "description", "freeze_hours", "thaw_hours",
   "created_at", "updated_at"]

def productModelFields : List String :=
  ["id", "user", "product_number", "product_name", "lot_number", "sample_size",
   "start_date", "test_type", "schedule_template", "ft_cycle_type",
   "ft_cycle_custom", "created_at"]

def taskModelFields : List String :=
  ["id", "user", "product", "due_date", "description", "completed",
   "completed_at", "deleted", "deleted_at", "created_at"]

def scheduleTemplateDeclaredFields : List String :=
  ["isPreset", "testingIntervals", "createdAt", "updatedAt"]

def scheduleTemplateMetaFields : List String :=
  ["id", "name", "description", "testingIntervals", "isPreset", "createdAt", "updatedAt"]

def ftCycleTemplateDeclaredFields : List String :=
  ["createdAt", "updatedAt"]

def ftCycleTemplateMetaFields : List String :=
  ["id", "name", "description", "cycles", "createdAt", "updatedAt"]

def productDeclaredFields : List String :=
  ["scheduleTemplate", "scheduleTemplateId", "startDate", "ftCycleType",
   "ftCycleCustom", "createdAt"]

def productMetaFields : List String :=
  ["id", "name", "assignee", "startDate", "scheduleTemplate", "scheduleTemplateId",
   "ftCycleType", "ftCycleCustom", "createdAt"]

def taskDeclaredFields : List String :=
  ["product", "productId", "dueDate", "completedAt", "deletedAt", "createdAt"]

def taskMetaFields : List String :=
  ["id", "productId", "product", "name", "type", "dueDate", "completed",
   "completedAt", "cycle", "deleted", "deletedAt", "createdAt"]

/- ---------------------------------------------------------------------
Serializer run results.
--------------------------------------------------------------------- -/

/-- Outcome of running a ModelSerializer on input data (the write path):
either the framework raises ImproperlyConfigured while resolving the field
list, or validation fails with per-field errors, or validated internal
data is produced. -/
inductive ValidateResult (A : Type) where
  | raiseConfig (badField : String)
  | invalid (errs : List String)
  | valid (a : A)
  deriving DecidableEq

/-- Outcome of serializing an instance (the read path): either the field
list fails to resolve, or a representation is produced. -/
inductive SerializeResult (A : Type) where
  | raiseConfig (badField : String)
  | ok (rep : A)
  deriving DecidableEq

/- ---------------------------------------------------------------------
ScheduleTemplate serializer (the only fully well-configured one).
--------------------------------------------------------------------- -/

/-- External camelCase representation of a schedule template, exactly the
fields listed in ScheduleTemplateSerializer.Meta.fields. -/
structure ScheduleTemplateRep where
  id : Nat
  name : String
  description : String
  testingIntervals : List Nat
  isPreset : Bool
  createdAt : Nat
  updatedAt : Nat
  deriving DecidableEq

/-- Read path of ScheduleTemplateSerializer: every field of the Meta list
resolves, so the camelCase representation is produced from the
snake_case record. -/
def scheduleTemplateSerialize (r : ScheduleTemplateRec) : SerializeResult ScheduleTemplateRep :=
  match firstUnresolvedField scheduleTemplateDeclaredFields scheduleTemplateMetaFields
      scheduleTemplateModelFields with
  | some f => .raiseConfig f
  | none =>
    .ok { id := r.id, name := r.name, description := r.description,
          testingIntervals := r.testing_intervals, isPreset := r.is_preset,
          createdAt := r.created_at, updatedAt := r.updated_at }

/-- Incoming JSON payload for a schedule template write; a field is none
when absent from the payload. -/
structure ScheduleTemplatePayload where
  name : Option String
  description : Option String
  testingIntervals : Option (List Nat)
  isPreset : Option Bool
  deriving DecidableEq

/-- Validated internal data produced by ScheduleTemplateSerializer: keys are
the snake_case source names; optional fields stay absent when not supplied. -/
structure ScheduleTemplateValidated where
  name : String
  description : Option String
  testing_intervals : List Nat
  is_preset : Option Bool
  deriving DecidableEq

/-- Write path of ScheduleTemplateSerializer: name is a required CharField
(max_length 255, blank not allowed), description is optional (TextField with
blank=True), testingIntervals is a required JSONField, isPreset an optional
BooleanField.  id/createdAt/updatedAt are read-only and never written. -/
def scheduleTemplateValidate (p : ScheduleTemplatePayload) : ValidateResult ScheduleTemplateValidated :=
  match firstUnresolvedField scheduleTemplateDeclaredFields scheduleTemplateMetaFields
      scheduleTemplateModelFields with
  | some f => .raiseConfig f
  | none =>
    match p.name with
    | none => .invalid ["name"]
    | some nm =>
      if nm = "" then .invalid ["name"]
      else if 255 < nm.length then .invalid ["name"]
      else
        match p.testingIntervals with
        | none => .invalid ["testingIntervals"]
        | some ti =>
          .valid { name := nm, description := p.description,
                   testing_intervals := ti, is_preset := p.isPreset }

/-- Feeding an external representation back as a write payload (every
exposed writable field present, under its external name). -/
def scheduleTemplateRepToPayload (rep : ScheduleTemplateRep) : ScheduleTemplatePayload :=
  { name := some rep.name, description := some rep.description,
    testingIntervals := some rep.testingIntervals, isPreset := some rep.isPreset }

/- ---------------------------------------------------------------------
ScheduleTemplate viewset.
--------------------------------------------------------------------- -/

/-- ScheduleTemplateViewSet.get_queryset: an authenticated caller sees rows
matching Q(user=request.user) | Q(is_preset=True); an anonymous request
gets every row (development branch). -/
def scheduleTemplateGetQueryset (db : DB) (auth : Option UserRec) : List ScheduleTemplateRec :=
  match auth with
  | some u => db.scheduleTemplates.filter (fun r => r.user == some u.id || r.is_preset)
  | none => db.scheduleTemplates

/-- ScheduleTemplateViewSet.presets: every row with the preset flag set,
with no owner scoping. -/
def scheduleTemplatePresets (db : DB) : List ScheduleTemplateRec :=
  db.scheduleTemplates.filter (fun r => r.is_preset)

/-- ScheduleTemplateViewSet.perform_create: serializer.save(user=...) with
the resolved request identity; model defaults fill the absent optional
fields (description '', is_preset False), auto timestamps are set to now. -/
def scheduleTemplatePerformCreate (db : DB) (auth : Option UserRec) (now : Nat)
    (v : ScheduleTemplateValidated) : ScheduleTemplateRec × DB :=
  let (u, db1) := resolveRequestUser db auth
  let r : ScheduleTemplateRec :=
    { id := db1.nextId, user := some u.id, name := v.name,
      description := v.description.getD "",
      testing_intervals := v.testing_intervals,
      is_preset := v.is_preset.getD false,
      created_at := now, updated_at := now }
  (r, { db1 with nextId := db1.nextId + 1,
                 scheduleTemplates := db1.scheduleTemplates ++ [r] })

/-- Response of a create endpoint. -/
inductive CreateResponse (A : Type) where
  | createdRep (rep : A)
  | badRequest (errs : List String)
  | serverError (badField : String)
  deriving DecidableEq

/-- POST /schedule-templates: validate, perform_create, respond 201 with the
serialized new record (ScheduleTemplateSerializer resolves, so serializing
the saved row succeeds). -/
def scheduleTemplateCreate (db : DB) (auth : Option UserRec) (now : Nat)
    (p : ScheduleTemplatePayload) : CreateResponse ScheduleTemplateRep × DB :=
  match scheduleTemplateValidate p with
  | .raiseConfig f => (.serverError f, db)
  | .invalid e => (.badRequest e, db)
  | .valid v =>
    let (r, db1) := scheduleTemplatePerformCreate db auth now v
    match scheduleTemplateSerialize r with
    | .raiseConfig f => (.serverError f, db1)
    | .ok rep => (.createdRep rep, db1)

/- ---------------------------------------------------------------------
FTCycleTemplate and Product serializers (read path) and perform_create.
--------------------------------------------------------------------- -/

/-- Read path of FTCycleTemplateSerializer: its Meta.fields lists 'cycles',
which neither the declared serializer fields nor the FTCycleTemplate model
provide, so the framework raises before producing any representation.  The
success branch (never reached for this serializer) would return the record. -/
def ftCycleTemplateSerialize (r : FTCycleTemplateRec) : SerializeResult FTCycleTemplateRec :=
  match firstUnresolvedField ftCycleTemplateDeclaredFields ftCycleTemplateMetaFields
      ftCycleTemplateModelFields with
  | some f => .raiseConfig f
  | none => .ok r

/-- Read path of ProductSerializer: its Meta.fields lists 'name' and
'assignee', which the Product model does not have, so the framework raises
before producing any representation. -/
def productSerialize (r : ProductRec) : SerializeResult ProductRec :=
  match firstUnresolvedField productDeclaredFields productMetaFields productModelFields with
  | some f => .raiseConfig f
  | none => .ok r

/-- FTCycleTemplateViewSet.perform_create save step: stamp the resolved
request identity on the validated data. -/
def ftCycleTemplatePerformCreate (db : DB) (auth : Option UserRec) (now : Nat)
    (name description : String) (freeze thaw : Int) : FTCycleTemplateRec × DB :=
  let (u, db1) := resolveRequestUser db auth
  let r : FTCycleTemplateRec :=
    { id := db1.nextId, user := u.id, name := name, description := description,
      freeze_hours := freeze, thaw_hours := thaw, created_at := now, updated_at := now }
  (r, { db1 with nextId := db1.nextId + 1,
                 ftCycleTemplates := db1.ftCycleTemplates ++ [r] })

/-- Validated internal data for a product write (snake_case source names). -/
structure ProductValidated where
  start_date : String
  schedule_template_id : Option Nat
  ft_cycle_type : String
  ft_cycle_custom : Option (List Nat)
  deriving DecidableEq

/-- ProductViewSet.perform_create save step: stamp the resolved request
identity; model defaults fill the string fields the serializer never
collects. -/
def productPerformCreate (db : DB) (auth : Option UserRec) (now : Nat)
    (v : ProductValidated) : ProductRec × DB :=
  let (u, db1) := resolveRequestUser db auth
  let r : ProductRec :=
    { id := db1.nextId, user := u.id, product_number := "", product_name := "",
      lot_number := "", sample_size := 0, start_date := v.start_date,
      test_type := "", schedule_template := v.schedule_template_id,
      ft_cycle_type := v.ft_cycle_type, ft_cycle_custom := v.ft_cycle_custom,
      created_at := now }
  (r, { db1 with nextId := db1.nextId + 1, products := db1.products ++ [r] })

/- ---------------------------------------------------------------------
NullableUUIDField (serializers.py lines 6-11) over DRF's UUIDField.
--------------------------------------------------------------------- -/

/-- Value of one hex digit, upper or lower case. -/
def hexDigitVal (c : Char) : Option Nat :=
  if '0' ≤ c ∧ c ≤ '9' then some (c.toNat - '0'.toNat)
  else if 'a' ≤ c ∧ c ≤ 'f' then some (c.toNat - 'a'.toNat + 10)
  else if 'A' ≤ c ∧ c ≤ 'F' then some (c.toNat - 'A'.toNat + 10)
  else none

/-- Fold a list of hex digits into a number; none if any is not hex. -/
def hexValue : List Char → Nat → Option Nat
  | [], acc => some acc
  | c :: cs, acc =>
    match hexDigitVal c with
    | some d => hexValue cs (acc * 16 + d)
    | none => none

/-- Remove every occurrence of a non-overlapping pattern, left to right,
as Python str.replace(pat, '') does; fuel bounds the recursion by the
length of the scanned list. -/
def removeAllSub (pat : List Char) : Nat → List Char → List Char
  | _, [] => []
  | 0, l => l
  | fuel + 1, c :: cs =>
    if !pat.isEmpty && pat.isPrefixOf (c :: cs) then
      removeAllSub pat fuel ((c :: cs).drop pat.length)
    else
      c :: removeAllSub pat fuel cs

/-- Python's uuid.UUID(hex=s) normalization: drop 'urn:' and 'uuid:'
occurrences, strip curly braces from both ends, drop every hyphen. -/
def uuidNormalize (s : String) : List Char :=
  let l0 := s.toList
  let l1 := removeAllSub "urn:".toList l0.length l0
  let l2 := removeAllSub "uuid:".toList l1.length l1
  let l3 := (l2.dropWhile (fun c => c = Char.ofNat 123 ∨ c = Char.ofNat 125)).reverse
  let l4 := (l3.dropWhile (fun c => c = Char.ofNat 123 ∨ c = Char.ofNat 125)).reverse
  l4.filter (fun c => c ≠ '-')

/-- uuid.UUID(hex=s): after normalization exactly 32 hex digits must remain;
their value is the UUID. -/
def parseUuidString (s : String) : Option Nat :=
  let l := uuidNormalize s
  if l.length = 32 then hexValue l 0 else none

/-- Result of a single field's to_internal_value: a parsed optional UUID or
a validation error. -/
inductive UuidParse where
  | ok (v : Option Nat)
  | err
  deriving DecidableEq

/-- DRF UUIDField.to_internal_value on a string input. -/
def uuidFieldToInternal (s : String) : UuidParse :=
  match parseUuidString s with
  | some v => .ok (some v)
  | none => .err

/-- NullableUUIDField.to_internal_value: empty string or null becomes None,
anything else is handed to the underlying UUIDField. -/
def nullableUuidToInternal (data : Option String) : UuidParse :=
  match data with
  | none => .ok none
  | some s => if s = "" then .ok none else uuidFieldToInternal s

/- ---------------------------------------------------------------------
Task serializer.
--------------------------------------------------------------------- -/

/-- Incoming JSON payload for a task write; a field is none when absent. -/
structure TaskPayload where
  productId : Option String
  dueDate : Option String
  completed : Option Bool
  completedAt : Option Nat
  deleted : Option Bool
  deletedAt : Option Nat
  deriving DecidableEq

/-- Validated internal data for a task write (snake_case source names). -/
structure TaskValidated where
  product_id : Nat
  due_date : String
  completed : Option Bool
  completed_at : Option Nat
  deleted : Option Bool
  deleted_at : Option Nat
  deriving DecidableEq

/-- Write path of TaskSerializer.  Its Meta.fields lists 'name', 'type' and
'cycle', which neither the declared serializer fields nor the Task model
provide, so the framework raises ImproperlyConfigured while resolving the
field list, before validating anything.  The success branch below (never
reached for this serializer) validates the two required writable fields. -/
def taskValidate (p : TaskPayload) : ValidateResult TaskValidated :=
  match firstUnresolvedField taskDeclaredFields taskMetaFields taskModelFields with
  | some f => .raiseConfig f
  | none =>
    match p.productId with
    | none => .invalid ["productId"]
    | some s =>
      match parseUuidString s with
      | none => .invalid ["productId"]
      | some pid =>
        match p.dueDate with
        | none => .invalid ["dueDate"]
        | some dd =>
          .valid { product_id := pid, due_date := dd, completed := p.completed,
                   completed_at := p.completedAt, deleted := p.deleted,
                   deleted_at := p.deletedAt }

/-- Read path of TaskSerializer: raises for the same reason; the success
branch (never reached) would return the record as its representation. -/
def taskSerialize (t : TaskRec) : SerializeResult TaskRec :=
  match firstUnresolvedField taskDeclaredFields taskMetaFields taskModelFields with
  | some f => .raiseConfig f
  | none => .ok t

/- ---------------------------------------------------------------------
Task viewset.
--------------------------------------------------------------------- -/

/-- The DRF action a request resolves to on TaskViewSet. -/
inductive TaskAction where
  | list
  | retrieve
  | update
  | destroy
  | restore
  | deleted
  deriving DecidableEq

/-- TaskViewSet.get_queryset for an already-resolved caller: the caller's
rows, then rows with deleted=True for the 'deleted' action and rows with
deleted=False for every other action. -/
def taskGetQueryset (db : DB) (caller : UserRec) (action : TaskAction) : List TaskRec :=
  let qs := db.tasks.filter (fun t => t.user == caller.id)
  if action = TaskAction.deleted then qs.filter (fun t => t.deleted)
  else qs.filter (fun t => !t.deleted)

/-- DRF get_object: look the pk up inside get_queryset; none means 404. -/
def taskGetObject (db : DB) (caller : UserRec) (action : TaskAction) (pk : Nat) :
    Option TaskRec :=
  (taskGetQueryset db caller action).find? (fun t => t.id == pk)

/-- task.save(): overwrite the row with the same primary key. -/
def dbUpdateTask (db : DB) (t : TaskRec) : DB :=
  { db with tasks := db.tasks.map (fun x => if x.id = t.id then t else x) }

/-- Response of a single-task endpoint. -/
inductive TaskResponse where
  | notFound
  | noContent
  | okRep (t : TaskRec)
  | badRequest (errs : List String)
  | serverError (badField : String)
  deriving DecidableEq

/-- Response of a task listing endpoint: the serialized rows, or the
ImproperlyConfigured escape from TaskSerializer. -/
inductive TaskListResponse where
  | okList (ts : List TaskRec)
  | serverError (badField : String)
  deriving DecidableEq

/-- get_serializer(queryset, many=True).data: an empty queryset yields an
empty list without ever touching the child serializer's fields; serializing
any row forces TaskSerializer's field-list resolution, which raises at its
first unresolvable name before producing anything. -/
def taskSerializeMany (ts : List TaskRec) : TaskListResponse :=
  match ts with
  | [] => .okList []
  | _ :: _ =>
    match firstUnresolvedField taskDeclaredFields taskMetaFields taskModelFields with
    | some f => .serverError f
    | none => .okList ts

/-- The rows TaskViewSet.get_queryset selects for the normal list action:
the caller's non-deleted rows. -/
def taskListQueryset (db : DB) (auth : Option UserRec) : List TaskRec × DB :=
  let (caller, db1) := resolveRequestUser db auth
  (taskGetQueryset db1 caller TaskAction.list, db1)

/-- The rows the deleted action selects: get_queryset already keeps only
deleted rows for this action, and the action filters deleted=True once
more. -/
def taskDeletedQueryset (db : DB) (auth : Option UserRec) : List TaskRec × DB :=
  let (caller, db1) := resolveRequestUser db auth
  ((taskGetQueryset db1 caller TaskAction.deleted).filter (fun t => t.deleted), db1)

/-- GET /tasks: select the rows, then serialize them with TaskSerializer. -/
def taskList (db : DB) (auth : Option UserRec) : TaskListResponse × DB :=
  let (qs, db1) := taskListQueryset db auth
  (taskSerializeMany qs, db1)

/-- GET /tasks/deleted: select the rows, then serialize them with
TaskSerializer. -/
def taskDeletedList (db : DB) (auth : Option UserRec) : TaskListResponse × DB :=
  let (qs, db1) := taskDeletedQueryset db auth
  (taskSerializeMany qs, db1)

/-- GET /tasks/pk: get_object then serialize the instance. -/
def taskRetrieve (db : DB) (auth : Option UserRec) (pk : Nat) : TaskResponse × DB :=
  let (caller, db1) := resolveRequestUser db auth
  match taskGetObject db1 caller TaskAction.retrieve pk with
  | none => (.notFound, db1)
  | some t =>
    match taskSerialize t with
    | .raiseConfig f => (.serverError f, db1)
    | .ok rep => (.okRep rep, db1)

/-- Applying validated data to an existing row (serializer.update). -/
def taskApplyUpdate (t : TaskRec) (v : TaskValidated) : TaskRec :=
  { t with product := v.product_id, due_date := v.due_date,
           completed := v.completed.getD t.completed,
           completed_at := v.completed_at,
           deleted := v.deleted.getD t.deleted,
           deleted_at := v.deleted_at }

/-- PUT /tasks/pk: get_object, validate, save, serialize. -/
def taskUpdate (db : DB) (auth : Option UserRec) (p : TaskPayload) (pk : Nat) :
    TaskResponse × DB :=
  let (caller, db1) := resolveRequestUser db auth
  match taskGetObject db1 caller TaskAction.update pk with
  | none => (.notFound, db1)
  | some t =>
    match taskValidate p with
    | .raiseConfig f => (.serverError f, db1)
    | .invalid e => (.badRequest e, db1)
    | .valid v =>
      let t2 := taskApplyUpdate t v
      match taskSerialize t2 with
      | .raiseConfig f => (.serverError f, dbUpdateTask db1 t2)
      | .ok rep => (.okRep rep, dbUpdateTask db1 t2)

/-- DELETE /tasks/pk (TaskViewSet.destroy): soft delete — get_object, set the
deleted flag, stamp the deletion time, save, answer 204 with no body. -/
def taskDestroy (db : DB) (auth : Option UserRec) (now : Nat) (pk : Nat) :
    TaskResponse × DB :=
  let (caller, db1) := resolveRequestUser db auth
  match taskGetObject db1 caller TaskAction.destroy pk with
  | none => (.notFound, db1)
  | some t =>
    (.noContent, dbUpdateTask db1 { t with deleted := true, deleted_at := some now })

/-- POST /tasks/pk/restore: get_object (resolved through get_queryset with
the 'restore' action), clear the deleted flag and time, save, serialize. -/
def taskRestore (db : DB) (auth : Option UserRec) (pk : Nat) : TaskResponse × DB :=
  let (caller, db1) := resolveRequestUser db auth
  match taskGetObject db1 caller TaskAction.restore pk with
  | none => (.notFound, db1)
  | some t =>
    let t2 := { t with deleted := false, deleted_at := none }
    let db2 := dbUpdateTask db1 t2
    match taskSerialize t2 with
    | .raiseConfig f => (.serverError f, db2)
    | .ok rep => (.okRep rep, db2)

/-- TaskViewSet.perform_create save step: stamp the resolved caller, take
model defaults for the fields the serializer never collects. -/
def taskPerformCreate (db : DB) (caller : UserRec) (now : Nat) (v : TaskValidated) :
    TaskRec × DB :=
  let r : TaskRec :=
    { id := db.nextId, user := caller.id, product := v.product_id,
      due_date := v.due_date, description := "",
      completed := v.completed.getD false, completed_at := v.completed_at,
      deleted := v.deleted.getD false, deleted_at := v.deleted_at,
      created_at := now }
  (r, { db with nextId := db.nextId + 1, tasks := db.tasks ++ [r] })

/-- Response of POST /tasks/batch. -/
inductive BatchResponse where
  | created (reps : List TaskRec)
  | badRequest (errs : List String)
  | serverError (badField : String)
  deriving DecidableEq

/-- The loop of TaskViewSet.batch: validate and create each payload in
order; stop at the first validation failure with its errors and keep the
rows already created; an ImproperlyConfigured escape also stops the loop. -/
def taskBatchGo (db : DB) (caller : UserRec) (now : Nat) :
    List TaskPayload → List TaskRec → BatchResponse × DB
  | [], acc => (.created acc.reverse, db)
  | p :: rest, acc =>
    match taskValidate p with
    | .raiseConfig f => (.serverError f, db)
    | .invalid e => (.badRequest e, db)
    | .valid v =>
      let (t, db1) := taskPerformCreate db caller now v
      taskBatchGo db1 caller now rest (t :: acc)

/-- POST /tasks/batch: resolve the caller, then run the loop. -/
def taskBatch (db : DB) (auth : Option UserRec) (now : Nat) (ps : List TaskPayload) :
    BatchResponse × DB :=
  let (caller, db1) := resolveRequestUser db auth
  taskBatchGo db1 caller now ps []

/- ---------------------------------------------------------------------
Helper lemmas about primary-key lookups.
--------------------------------------------------------------------- -/

/-- If a row with a given key exists but fails the filter, a key lookup in
the filtered list finds nothing, provided keys are unique. -/
theorem find_filter_eq_none {A : Type} (f : A → Nat) (p : A → Bool) (l : List A)
    (t : A) (hn : (l.map f).Nodup) (ht : t ∈ l) (hp : p t = false) :
    (l.filter p).find? (fun x => f x == f t) = none := by
  apply List.find?_eq_none.mpr
  intro x hx
  rw [List.mem_filter] at hx
  simp only [beq_iff_eq]
  intro hfx
  have hxt : x = t := List.inj_on_of_nodup_map hn hx.1 ht hfx
  rw [hxt, hp] at hx
  exact Bool.false_ne_true hx.2

/-- If a row with a given key exists and passes the filter, a key lookup in
the filtered list finds exactly that row, provided keys are unique. -/
theorem find_filter_eq_some {A : Type} (f : A → Nat) (p : A → Bool) (l : List A)
    (t : A) (hn : (l.map f).Nodup) (ht : t ∈ l) (hp : p t = true) :
    (l.filter p).find? (fun x => f x == f t) = some t := by
  induction l with
  | nil => cases ht
  | cons a tl ih =>
    rw [List.map_cons, List.nodup_cons] at hn
    rcases List.mem_cons.mp ht with h | h
    · subst h
      rw [List.filter_cons_of_pos hp]
      exact List.find?_cons_of_pos _ (by simp)
    · have hfa : (f a == f t) = false := by
        simp only [beq_eq_false_iff_ne, ne_eq]
        intro he
        exact hn.1 (he ▸ List.mem_map_of_mem f h)
      rw [List.filter_cons]
      by_cases hpa : p a = true
      · rw [if_pos hpa]
        rw [List.find?_cons_of_neg _ (by simp [hfa])]
        exact ih hn.2 h
      · rw [if_neg hpa]
        exact ih hn.2 h

/-- get_or_create always hands back a row carrying the requested username. -/
theorem getOrCreateUser_username (db : DB) (uname email : String) :
    ((getOrCreateUser db uname email).1).username = uname := by
  unfold getOrCreateUser
  cases hf : db.users.find? (fun u => u.username == uname) with
  | none => rfl
  | some u => simpa using List.find?_some hf

/-- get_or_create hands back a row present in the resulting store. -/
theorem getOrCreateUser_mem (db : DB) (uname email : String) :
    (getOrCreateUser db uname email).1 ∈ ((getOrCreateUser db uname email).2).users := by
  unfold getOrCreateUser
  cases hf : db.users.find? (fun u => u.username == uname) with
  | none => simp
  | some u => simpa using List.mem_of_find?_eq_some hf

/-- Serializing a listing that holds at least one row always raises the
TaskSerializer configuration error at 'name'. -/
theorem taskSerializeMany_of_mem (ts : List TaskRec) (t : TaskRec) (h : t ∈ ts) :
    taskSerializeMany ts = TaskListResponse.serverError "name" := by
  cases ts with
  | nil => cases h
  | cons a l => rfl

/-- A second get_or_create on the same username (with any default email)
finds the row the first one produced and changes nothing. -/
theorem getOrCreateUser_idem (db : DB) (uname e1 e2 : String) :
    getOrCreateUser ((getOrCreateUser db uname e1).2) uname e2
      = getOrCreateUser db uname e1 := by
  unfold getOrCreateUser
  cases hf : db.users.find? (fun u => u.username == uname) with
  | none =>
    simp only [hf]
    rw [List.find?_append, hf]
    simp
  | some u =>
    simp only [hf]

/- ---------------------------------------------------------------------
Concrete fixtures.
--------------------------------------------------------------------- -/

def uAlice : UserRec := { id := 1, username := "alice", email := "alice@example.com" }

/-- A soft-deleted task owned by uAlice. -/
def tDel : TaskRec :=
  { id := 2, user := 1, product := 7, due_date := "2024-01-08",
    description := "week 1 pull", completed := false, completed_at := none,
    deleted := true, deleted_at := some 50, created_at := 10 }

/-- A live (non-deleted) task owned by uAlice. -/
def tLive : TaskRec :=
  { id := 3, user := 1, product := 7, due_date := "2024-01-15",
    description := "week 2 pull", completed := false, completed_at := none,
    deleted := false, deleted_at := none, created_at := 10 }

def dbSample : DB :=
  { nextId := 100, users := [uAlice], scheduleTemplates := [],
    ftCycleTemplates := [], products := [], tasks := [tDel, tLive] }

def stSample : ScheduleTemplateRec :=
  { id := 11, user := some 1, name := "weekly", description := "weekly pulls",
    testing_intervals := [0, 4, 8], is_preset := false, created_at := 3, updated_at := 4 }

def ftSample : FTCycleTemplateRec :=
  { id := 12, user := 1, name := "c1", description := "", freeze_hours := 24,
    thaw_hours := 12, created_at := 3, updated_at := 3 }

def prodSample : ProductRec :=
  { id := 7, user := 1, product_number := "P-1", product_name := "gel",
    lot_number := "L1", sample_size := 3, start_date := "2024-01-01",
    test_type := "RT", schedule_template := none, ft_cycle_type := "consecutive",
    ft_cycle_custom := none, created_at := 1 }

/-- A syntactically well-formed task payload. -/
def pBatch : TaskPayload :=
  { productId := some "123e4567-e89b-12d3-a456-426614174000",
    dueDate := some "2024-01-08", completed := none, completedAt := none,
    deleted := none, deletedAt := none }

/-- An empty task payload. -/
def pEmpty : TaskPayload :=
  { productId := none, dueDate := none, completed := none, completedAt := none,
    deleted := none, deletedAt := none }

/-- A schedule-template payload asking for a preset. -/
def presetPayload : ScheduleTemplatePayload :=
  { name := some "Standard", description := none,
    testingIntervals := some [0, 13, 26], isPreset := some true }

/- ---------------------------------------------------------------------
Claim theorems.
--------------------------------------------------------------------- -/

/-- Claim C1 (code behavior at the failing input): the restore action on a
soft-deleted task owned by the caller answers not-found and leaves the
store unchanged — get_object resolves through get_queryset, which keeps
only rows with deleted=False for every action other than the deleted
listing — so the task never reappears among the rows the normal listing
selects (and that listing itself answers the TaskSerializer configuration
error whenever it has rows to show). -/
theorem restore_of_deleted_task_not_found :
    tDel ∈ dbSample.tasks ∧ tDel.deleted = true ∧ tDel.user = uAlice.id ∧
    taskRestore dbSample (some uAlice) tDel.id = (TaskResponse.notFound, dbSample) ∧
    tDel ∉ (taskListQueryset dbSample (some uAlice)).1 ∧
    taskList dbSample (some uAlice) = (TaskListResponse.serverError "name", dbSample) := by
  decide

/-- Claim C2 (code behavior at the failing input): batch create on any
payload list stops at the very first payload with a configuration error —
TaskSerializer's field list names 'name', which the Task model does not
have — so it neither reports per-field validation errors with a 400 nor
creates any task. -/
theorem batch_create_raises_config_error :
    taskBatch dbSample (some uAlice) 20 [pBatch, pBatch]
      = (BatchResponse.serverError "name", dbSample) ∧
    taskBatch dbSample (some uAlice) 20 [pBatch]
      = (BatchResponse.serverError "name", dbSample) := by
  decide

/-- Claim C6 (code behavior at the failing input): the NullableUUIDField
itself treats null and the empty string as an absent value and parses a
well-formed identifier, but ProductSerializer's field list names 'name'
(and 'assignee'), which the Product model does not have, so no product
request can get past serializer construction. -/
theorem nullable_uuid_blank_and_product_misconfigured :
    nullableUuidToInternal none = UuidParse.ok none ∧
    nullableUuidToInternal (some "") = UuidParse.ok none ∧
    nullableUuidToInternal (some "123e4567-e89b-12d3-a456-426614174000")
      = UuidParse.ok (some 24249434048109030647017182301789831168) ∧
    firstUnresolvedField productDeclaredFields productMetaFields productModelFields
      = some "name" ∧
    productSerialize prodSample = SerializeResult.raiseConfig "name" := by
  refine ⟨rfl, rfl, ?_, rfl, rfl⟩
  rfl

/-- Claim C7: an authenticated user's schedule-template list query shows a
template exactly when the user owns it or its preset flag is set; the
presets action shows exactly the preset rows. -/
theorem schedule_template_visibility (db : DB) (u : UserRec) (r : ScheduleTemplateRec) :
    (r ∈ scheduleTemplateGetQueryset db (some u) ↔
      r ∈ db.scheduleTemplates ∧ (r.user = some u.id ∨ r.is_preset = true)) ∧
    (r ∈ scheduleTemplatePresets db ↔ r ∈ db.scheduleTemplates ∧ r.is_preset = true) := by
  constructor
  · simp [scheduleTemplateGetQueryset, List.mem_filter]
  · simp [scheduleTemplatePresets, List.mem_filter]

/-- Claim C5 (code behavior): the two listings select exactly the claimed
row sets — the caller's non-deleted rows, the caller's deleted rows, never
both at once — but the endpoints cannot return them: serializing any
nonempty result raises the TaskSerializer configuration error at 'name',
so each listing answers a server error whenever it has a row to show and
an empty list only when it has none. -/
theorem task_listing_selects_but_serialization_fails :
    (∀ db : DB, ∀ u : UserRec, ∀ t : TaskRec,
      (t ∈ (taskListQueryset db (some u)).1 ↔
        t ∈ db.tasks ∧ t.user = u.id ∧ t.deleted = false) ∧
      (t ∈ (taskDeletedQueryset db (some u)).1 ↔
        t ∈ db.tasks ∧ t.user = u.id ∧ t.deleted = true) ∧
      ¬(t ∈ (taskListQueryset db (some u)).1 ∧ t ∈ (taskDeletedQueryset db (some u)).1)) ∧
    taskList dbSample (some uAlice) = (TaskListResponse.serverError "name", dbSample) ∧
    taskDeletedList dbSample (some uAlice) = (TaskListResponse.serverError "name", dbSample) ∧
    taskList { dbSample with tasks := [] } (some uAlice)
      = (TaskListResponse.okList [], { dbSample with tasks := [] }) := by
  refine ⟨?_, by decide, by decide, by decide⟩
  intro db u t
  have hA : t ∈ (taskListQueryset db (some u)).1 ↔
      t ∈ db.tasks ∧ t.user = u.id ∧ t.deleted = false := by
    simp [taskListQueryset, resolveRequestUser, taskGetQueryset, List.mem_filter,
      and_assoc, and_comm]
  have hB : t ∈ (taskDeletedQueryset db (some u)).1 ↔
      t ∈ db.tasks ∧ t.user = u.id ∧ t.deleted = true := by
    simp [taskDeletedQueryset, resolveRequestUser, taskGetQueryset, List.mem_filter,
      and_assoc, and_comm]
  refine ⟨hA, hB, fun hc => ?_⟩
  have h1 := (hA.mp hc.1).2.2
  have h2 := (hB.mp hc.2).2.2
  rw [h1] at h2
  exact Bool.false_ne_true h2

/-- Claim C3: for ScheduleTemplate the naming translation round-trips —
serializing a (creatable) record and feeding the representation back
recovers exactly the internal writable field values — but for
FTCycleTemplate serialization of any record raises a configuration error,
because the serializer's field list names 'cycles', which the model does
not have. -/
theorem template_serializer_roundtrip_law (r : ScheduleTemplateRec) (c : FTCycleTemplateRec)
    (h1 : r.name ≠ "") (h2 : r.name.length ≤ 255) :
    (scheduleTemplateSerialize r = SerializeResult.ok
        { id := r.id, name := r.name, description := r.description,
          testingIntervals := r.testing_intervals, isPreset := r.is_preset,
          createdAt := r.created_at, updatedAt := r.updated_at } ∧
      scheduleTemplateValidate (scheduleTemplateRepToPayload
          { id := r.id, name := r.name, description := r.description,
            testingIntervals := r.testing_intervals, isPreset := r.is_preset,
            createdAt := r.created_at, updatedAt := r.updated_at })
        = ValidateResult.valid
            { name := r.name, description := some r.description,
              testing_intervals := r.testing_intervals, is_preset := some r.is_preset }) ∧
    ftCycleTemplateSerialize c = SerializeResult.raiseConfig "cycles" := by
  refine ⟨⟨rfl, ?_⟩, rfl⟩
  have hcfg : firstUnresolvedField scheduleTemplateDeclaredFields scheduleTemplateMetaFields
      scheduleTemplateModelFields = none := rfl
  unfold scheduleTemplateValidate scheduleTemplateRepToPayload
  rw [hcfg]
  simp only []
  rw [if_neg h1, if_neg (Nat.not_lt.mpr h2)]

/-- Witness for claim C3's theorem at the concrete fixtures. -/
theorem template_serializer_roundtrip_law_witness :
    stSample.name ≠ "" ∧ stSample.name.length ≤ 255 ∧
    ((scheduleTemplateSerialize stSample = SerializeResult.ok
        { id := stSample.id, name := stSample.name, description := stSample.description,
          testingIntervals := stSample.testing_intervals, isPreset := stSample.is_preset,
          createdAt := stSample.created_at, updatedAt := stSample.updated_at } ∧
      scheduleTemplateValidate (scheduleTemplateRepToPayload
          { id := stSample.id, name := stSample.name, description := stSample.description,
            testingIntervals := stSample.testing_intervals, isPreset := stSample.is_preset,
            createdAt := stSample.created_at, updatedAt := stSample.updated_at })
        = ValidateResult.valid
            { name := stSample.name, description := some stSample.description,
              testing_intervals := stSample.testing_intervals,
              is_preset := some stSample.is_preset }) ∧
    ftCycleTemplateSerialize ftSample = SerializeResult.raiseConfig "cycles") :=
  ⟨by decide, by decide,
    template_serializer_roundtrip_law stSample ftSample (by decide) (by decide)⟩

/-- Counterexample to claim C4 as stated: an existing (soft-deleted) task
for which the delete operation answers not-found instead of no-content. -/
theorem destroy_deleted_task_counterexample :
    tDel ∈ dbSample.tasks ∧ tDel.user = uAlice.id ∧
    (taskDestroy dbSample (some uAlice) 60 tDel.id).1 = TaskResponse.notFound ∧
    (taskDestroy dbSample (some uAlice) 60 tDel.id).1 ≠ TaskResponse.noContent := by
  decide

/-- Claim C4 (amended): for every task of the requesting user whose deleted
flag is unset, the delete operation answers no-content with the row updated
in place — deleted flag set, deletion time stamped, every other field
unchanged — and the row is not removed from the store. -/
theorem destroy_marks_live_task (db : DB) (u : UserRec) (now : Nat) (t : TaskRec)
    (hn : (db.tasks.map TaskRec.id).Nodup) (ht : t ∈ db.tasks)
    (howner : t.user = u.id) (hlive : t.deleted = false) :
    taskDestroy db (some u) now t.id =
      (TaskResponse.noContent, dbUpdateTask db { t with deleted := true, deleted_at := some now }) ∧
    { t with deleted := true, deleted_at := some now } ∈ (taskDestroy db (some u) now t.id).2.tasks ∧
    ((taskDestroy db (some u) now t.id).2.tasks).length = db.tasks.length := by
  have hq : taskGetObject db u TaskAction.destroy t.id = some t := by
    unfold taskGetObject taskGetQueryset
    simp only [if_neg (by decide : ¬ (TaskAction.destroy = TaskAction.deleted))]
    rw [List.filter_filter]
    exact find_filter_eq_some TaskRec.id _ db.tasks t hn ht (by simp [hlive, howner])
  have hd : taskDestroy db (some u) now t.id =
      (TaskResponse.noContent, dbUpdateTask db { t with deleted := true, deleted_at := some now }) := by
    simp [taskDestroy, resolveRequestUser, hq]
  refine ⟨hd, ?_, ?_⟩
  · rw [hd]
    simp only [dbUpdateTask]
    have := List.mem_map_of_mem (fun x : TaskRec =>
      if x.id = ({ t with deleted := true, deleted_at := some now } : TaskRec).id
      then { t with deleted := true, deleted_at := some now } else x) ht
    simpa using this
  · rw [hd]
    simp [dbUpdateTask]

/-- Witness for claim C4's amended theorem at the concrete fixtures. -/
theorem destroy_marks_live_task_witness :
    (dbSample.tasks.map TaskRec.id).Nodup ∧ tLive ∈ dbSample.tasks ∧
    tLive.user = uAlice.id ∧ tLive.deleted = false ∧
    (taskDestroy dbSample (some uAlice) 60 tLive.id =
      (TaskResponse.noContent,
        dbUpdateTask dbSample { tLive with deleted := true, deleted_at := some 60 }) ∧
    { tLive with deleted := true, deleted_at := some 60 }
        ∈ (taskDestroy dbSample (some uAlice) 60 tLive.id).2.tasks ∧
    ((taskDestroy dbSample (some uAlice) 60 tLive.id).2.tasks).length
        = dbSample.tasks.length) :=
  ⟨by decide, by decide, by decide, by decide,
    destroy_marks_live_task dbSample uAlice 60 tLive (by decide) (by decide)
      (by decide) (by decide)⟩

/-- The record the create endpoint stores for presetPayload: preset flag
set, yet stamped with the requesting user. -/
def stOwnedPreset : ScheduleTemplateRec :=
  { id := 100, user := some 1, name := "Standard", description := "",
    testing_intervals := [0, 13, 26], is_preset := true,
    created_at := 30, updated_at := 30 }

/-- Counterexample to claim C8 as stated: creating a template with the
preset flag set stores a preset that does have an owning user, so a record
reachable through the create operation violates preset-implies-no-owner. -/
theorem preset_created_with_owner_counterexample :
    ((scheduleTemplateCreate dbSample (some uAlice) 30 presetPayload).2).scheduleTemplates
      = [stOwnedPreset] ∧
    stOwnedPreset.is_preset = true ∧ stOwnedPreset.user = some uAlice.id := by
  decide

/-- Claim C8 (amended): every schedule template stored by the API create
operation carries an owning user — the is_preset flag is stored exactly as
submitted, so an API-created preset is owned; the no-owner configuration is
not producible through the create operation. -/
theorem api_created_template_has_owner (db : DB) (auth : Option UserRec) (now : Nat)
    (v : ScheduleTemplateValidated) :
    ((scheduleTemplatePerformCreate db auth now v).1).user.isSome = true ∧
    ((scheduleTemplatePerformCreate db auth now v).1).is_preset = v.is_preset.getD false := by
  constructor <;> simp [scheduleTemplatePerformCreate]

/-- Claim C9: every entity's perform_create stamps the stored record with
the resolved request identity; an unauthenticated request resolves to the
'testuser' placeholder, which is created on first use, kept in the store,
and is exactly what the current-user endpoint returns thereafter. -/
theorem create_stamps_requesting_user :
    (∀ db auth now v, ((scheduleTemplatePerformCreate db auth now v).1).user
        = some ((resolveRequestUser db auth).1).id) ∧
    (∀ db auth now nm ds fz tw, ((ftCycleTemplatePerformCreate db auth now nm ds fz tw).1).user
        = ((resolveRequestUser db auth).1).id) ∧
    (∀ db auth now v, ((productPerformCreate db auth now v).1).user
        = ((resolveRequestUser db auth).1).id) ∧
    (∀ db caller now v, ((taskPerformCreate db caller now v).1).user = caller.id) ∧
    (∀ db, ((resolveRequestUser db none).1).username = "testuser") ∧
    (∀ db, (resolveRequestUser db none).1 ∈ ((resolveRequestUser db none).2).users) ∧
    (∀ db, userCurrent ((resolveRequestUser db none).2)
        = ((resolveRequestUser db none).1, (resolveRequestUser db none).2)) ∧
    (∀ db, ((userCurrent db).1).username = "testuser") := by
  refine ⟨?_, ?_, ?_, ?_, ?_, ?_, ?_, ?_⟩
  · intro db auth now v
    cases he : resolveRequestUser db auth with
    | mk u db1 => simp [scheduleTemplatePerformCreate, he]
  · intro db auth now nm ds fz tw
    cases he : resolveRequestUser db auth with
    | mk u db1 => simp [ftCycleTemplatePerformCreate, he]
  · intro db auth now v
    cases he : resolveRequestUser db auth with
    | mk u db1 => simp [productPerformCreate, he]
  · intro db caller now v
    rfl
  · intro db
    simpa [resolveRequestUser] using getOrCreateUser_username db "testuser" ""
  · intro db
    simpa [resolveRequestUser] using getOrCreateUser_mem db "testuser" ""
  · intro db
    have h := getOrCreateUser_idem db "testuser" "" "test@example.com"
    simpa [userCurrent, resolveRequestUser] using h
  · intro db
    exact getOrCreateUser_username db "testuser" "test@example.com"

/-- Counterexample to claim C10 as stated: the deleted-task listing cannot
observe a soft-deleted task either — its queryset does select the task, but
serializing the nonempty result raises the TaskSerializer configuration
error, so GET /tasks/deleted answers a server error, never a listing
holding the task. -/
theorem deleted_listing_cannot_show_task_counterexample :
    tDel ∈ dbSample.tasks ∧ tDel.deleted = true ∧ tDel.user = uAlice.id ∧
    tDel ∈ (taskDeletedQueryset dbSample (some uAlice)).1 ∧
    taskDeletedList dbSample (some uAlice) = (TaskListResponse.serverError "name", dbSample) ∧
    (taskDeletedList dbSample (some uAlice)).1 ≠ TaskListResponse.okList [tDel] := by
  decide

/-- Claim C10 (amended): a soft-deleted task is invisible to every
id-addressed operation resolved through the default queryset — retrieve,
update, delete and restore all answer not-found and leave the store
unchanged — and it is absent from the rows the normal listing selects.
The deleted-task listing is the only read path whose selected rows include
it, but serializing that nonempty result raises the TaskSerializer
configuration error, so no read path actually returns the task. -/
theorem deleted_task_hidden_from_id_operations (db : DB) (u : UserRec) (now : Nat)
    (p : TaskPayload) (t : TaskRec)
    (hn : (db.tasks.map TaskRec.id).Nodup) (ht : t ∈ db.tasks) (hdel : t.deleted = true) :
    taskRetrieve db (some u) t.id = (TaskResponse.notFound, db) ∧
    taskUpdate db (some u) p t.id = (TaskResponse.notFound, db) ∧
    taskDestroy db (some u) now t.id = (TaskResponse.notFound, db) ∧
    taskRestore db (some u) t.id = (TaskResponse.notFound, db) ∧
    t ∉ (taskListQueryset db (some u)).1 ∧
    (t.user = u.id → t ∈ (taskDeletedQueryset db (some u)).1) ∧
    (t.user = u.id →
      taskDeletedList db (some u) = (TaskListResponse.serverError "name", db)) := by
  have hobj : ∀ a : TaskAction, ¬ (a = TaskAction.deleted) →
      taskGetObject db u a t.id = none := by
    intro a ha
    unfold taskGetObject taskGetQueryset
    simp only [if_neg ha]
    rw [List.filter_filter]
    exact find_filter_eq_none TaskRec.id _ db.tasks t hn ht (by simp [hdel])
  have hmem : t.user = u.id → t ∈ (taskDeletedQueryset db (some u)).1 := by
    intro howner
    simp [taskDeletedQueryset, resolveRequestUser, taskGetQueryset, List.mem_filter,
      hdel, howner, ht]
  refine ⟨?_, ?_, ?_, ?_, ?_, hmem, ?_⟩
  · simp [taskRetrieve, resolveRequestUser, hobj TaskAction.retrieve (by decide)]
  · simp [taskUpdate, resolveRequestUser, hobj TaskAction.update (by decide)]
  · simp [taskDestroy, resolveRequestUser, hobj TaskAction.destroy (by decide)]
  · simp [taskRestore, resolveRequestUser, hobj TaskAction.restore (by decide)]
  · simp [taskListQueryset, resolveRequestUser, taskGetQueryset, List.mem_filter, hdel]
  · intro howner
    have hser := taskSerializeMany_of_mem _ t (hmem howner)
    simp only [taskDeletedList]
    rw [hser]
    simp [taskDeletedQueryset, resolveRequestUser]

/-- Witness for claim C10's amended theorem at the concrete fixtures. -/
theorem deleted_task_hidden_from_id_operations_witness :
    (dbSample.tasks.map TaskRec.id).Nodup ∧ tDel ∈ dbSample.tasks ∧ tDel.deleted = true ∧
    (taskRetrieve dbSample (some uAlice) tDel.id = (TaskResponse.notFound, dbSample) ∧
    taskUpdate dbSample (some uAlice) pEmpty tDel.id = (TaskResponse.notFound, dbSample) ∧
    taskDestroy dbSample (some uAlice) 60 tDel.id = (TaskResponse.notFound, dbSample) ∧
    taskRestore dbSample (some uAlice) tDel.id = (TaskResponse.notFound, dbSample) ∧
    tDel ∉ (taskListQueryset dbSample (some uAlice)).1 ∧
    (tDel.user = uAlice.id → tDel ∈ (taskDeletedQueryset dbSample (some uAlice)).1) ∧
    (tDel.user = uAlice.id →
      taskDeletedList dbSample (some uAlice)
        = (TaskListResponse.serverError "name", dbSample))) :=
  ⟨by decide, by decide, by decide,
    deleted_task_hidden_from_id_operations dbSample uAlice 60 pEmpty tDel
      (by decide) (by decide) (by decide)⟩
